import Mathlib

/-!
Verification of the billing/estimate tool's totals calculator and numbering
service, shallowly embedded from the Python source.  Monetary values are
modelled as rationals (the source performs the same straight-line arithmetic
on Python floats); document payloads coming from the `tally_bridge` UI
component are modelled as records of the fields the flows actually read.
-/

namespace Billing

/-- Per-line amount as computed in `app_persistent.py` lines 267-273 (identical
in `app_cloud.py` lines 126-130): `line_before_discount = quantity * rate`,
`line_discount_amount = line_before_discount * (discount / 100)`,
`line_total = line_before_discount - line_discount_amount`. -/
def compute_line_amount (quantity rate discount : ℚ) : ℚ :=
  let line_before_discount := quantity * rate
  let line_discount_amount := line_before_discount * (discount / 100)
  line_before_discount - line_discount_amount

/-- The totals record assembled by the document flows: the fields of the
`Estimate` / `Invoice` dataclasses that hold money totals, plus the
taxable base (`subtotal - global_discount_amount`, called `after_discount`
in `app_persistent.py`). -/
structure DocumentTotals where
  subtotal : ℚ
  global_discount_rate : ℚ
  global_discount_amount : ℚ
  taxable_base : ℚ
  global_tax_rate : ℚ
  total_tax : ℚ
  grand_total : ℚ
  deriving Repr, DecidableEq

/-- Document totals as computed in `app.py` lines 216-227:
`subtotal = sum(line amounts)`;
`global_discount_amount = subtotal * (global_discount_rate / 100)`;
`total_tax = (subtotal - global_discount_amount) * (global_tax_rate / 100)`;
`grand_total = subtotal - global_discount_amount + total_tax`. -/
def compute_document_totals (line_amounts : List ℚ)
    (global_discount_rate global_tax_rate : ℚ) : DocumentTotals :=
  let subtotal := line_amounts.sum
  let global_discount_amount := subtotal * (global_discount_rate / 100)
  let total_tax := (subtotal - global_discount_amount) * (global_tax_rate / 100)
  let grand_total := subtotal - global_discount_amount + total_tax
  { subtotal := subtotal
    global_discount_rate := global_discount_rate
    global_discount_amount := global_discount_amount
    taxable_base := subtotal - global_discount_amount
    global_tax_rate := global_tax_rate
    total_tax := total_tax
    grand_total := grand_total }

/-- Totals as computed in `app_persistent.py` lines 291-294 (same in
`app_cloud.py`): `global_discount_amount = subtotal * (global_discount / 100)`;
`after_discount = subtotal - global_discount_amount`;
`tax_amount = after_discount * (global_tax / 100)`;
`grand_total = after_discount + tax_amount`.  Returned as
(global_discount_amount, tax_amount, grand_total). -/
def persistentTotals (subtotal global_discount global_tax : ℚ) : ℚ × ℚ × ℚ :=
  let global_discount_amount := subtotal * (global_discount / 100)
  let after_discount := subtotal - global_discount_amount
  let tax_amount := after_discount * (global_tax / 100)
  let grand_total := after_discount + tax_amount
  (global_discount_amount, tax_amount, grand_total)

/-- Error taxonomy the spec prescribes for the calculator. -/
inductive CalcError where
  | InvalidInput
  deriving Repr, DecidableEq

/-- Modelled from the spec: a validated `compute_line_amount` that reports
`InvalidInput` synchronously for out-of-range inputs (`quantity < 0`,
`unit_price < 0`, or `discount_rate` outside `[0, 100]`), as no validation
layer exists anywhere in the source. -/
def compute_line_amount_validated (quantity rate discount : ℚ) :
    Except CalcError ℚ :=
  if 0 ≤ quantity ∧ 0 ≤ rate ∧ 0 ≤ discount ∧ discount ≤ 100 then
    Except.ok (quantity * rate * (1 - discount / 100))
  else
    Except.error CalcError.InvalidInput

/-- One line of the `tally_bridge` payload dict, restricted to the keys the
flows read: `item`, `quantity`, `rate`, `discount`, `amount`.  A missing or
empty item string (falsy in Python) is modelled as the empty string. -/
structure PayloadLine where
  item : String
  quantity : ℚ
  rate : ℚ
  discount : ℚ
  amount : ℚ
  deriving Repr, DecidableEq

/-- The `tally_bridge` result dict: the lines plus the optional
`globalDiscount` and `globalTax` keys; `none` models an absent key, read in
the source with `dict.get` and a flow-specific default. -/
structure Payload where
  lines : List PayloadLine
  globalDiscount : Option ℚ
  globalTax : Option ℚ
  deriving Repr, DecidableEq

/-- The money-relevant fields of the `EstimateItem` dataclass
(`src/models/models.py` lines 91-102) as filled by the persistent flow. -/
structure EstimateItem where
  name : String
  quantity : ℚ
  unit_price : ℚ
  discount_rate : ℚ
  line_total : ℚ
  tax_rate : ℚ
  deriving Repr, DecidableEq

/-- The money-relevant fields of the `InvoiceItem` dataclass as filled by
`app.py`. -/
structure InvoiceItem where
  name : String
  quantity : ℚ
  unit_price : ℚ
  discount_rate : ℚ
  tax_rate : ℚ
  line_total : ℚ
  deriving Repr, DecidableEq

/-- Invoice-item construction of `app.py` lines 252-260: `line_total` is
copied from the payload's `amount` key (`float(line.get('amount', 0))`),
not recomputed from quantity, rate and discount; `tax_rate` is fixed at 18. -/
def appInvoiceItem (line : PayloadLine) : InvoiceItem :=
  { name := line.item
    quantity := line.quantity
    unit_price := line.rate
    discount_rate := line.discount
    tax_rate := 18
    line_total := line.amount }

/-- The invoice-items loop of `app.py` lines 250-262. -/
def appInvoiceItems (lines : List PayloadLine) : List InvoiceItem :=
  lines.map appInvoiceItem

/-- The estimate-items loop of `app_persistent.py` lines 263-284: a line is
included exactly when its item is truthy and its quantity is > 0; the stored
`line_total` is `line_before_discount - line_discount_amount` computed from
the line's own quantity, rate and discount; `tax_rate` is set to the global
tax. -/
def persistentLineItems (lines : List PayloadLine) (global_tax : ℚ) :
    List EstimateItem :=
  (lines.filter fun l => l.item != "" && decide (0 < l.quantity)).map fun l =>
    let line_before_discount := l.quantity * l.rate
    let line_discount_amount := line_before_discount * (l.discount / 100)
    { name := l.item
      quantity := l.quantity
      unit_price := l.rate
      discount_rate := l.discount
      line_total := line_before_discount - line_discount_amount
      tax_rate := global_tax }

/-- The two rejection paths of the persistent save flow: the outer guard
(`if result and result.get("lines")`) and the empty-items check
(`"Please add at least one item to the estimate!"`). -/
inductive SaveError where
  | NoLines
  | NoItems
  deriving Repr, DecidableEq

/-- The money fields of the `Estimate` dataclass persisted by
`app_persistent.py` lines 297-316. -/
structure Estimate where
  items : List EstimateItem
  subtotal : ℚ
  global_discount_rate : ℚ
  global_discount_amount : ℚ
  total_tax : ℚ
  grand_total : ℚ
  deriving Repr, DecidableEq

/-- The save flow of `app_persistent.py` lines 247-316 restricted to its
money-relevant computation: `globalDiscount` defaults to 0 and `globalTax`
to 18 (lines 257-258); lines failing the item/quantity filter are skipped;
an empty item list is rejected; otherwise the subtotal accumulates the
stored line totals and the document totals follow lines 291-294. -/
def appPersistentSave (p : Payload) : Except SaveError Estimate :=
  if p.lines = [] then Except.error SaveError.NoLines
  else
    let global_discount := p.globalDiscount.getD 0
    let global_tax := p.globalTax.getD 18
    let items := persistentLineItems p.lines global_tax
    if items = [] then Except.error SaveError.NoItems
    else
      let subtotal := (items.map EstimateItem.line_total).sum
      let global_discount_amount := subtotal * (global_discount / 100)
      let after_discount := subtotal - global_discount_amount
      let tax_amount := after_discount * (global_tax / 100)
      let grand_total := after_discount + tax_amount
      Except.ok
        { items := items
          subtotal := subtotal
          global_discount_rate := global_discount
          global_discount_amount := global_discount_amount
          total_tax := tax_amount
          grand_total := grand_total }

/-- The results pane of `demo_app.py` lines 69-95: `globalDiscount` defaults
to 0 and `globalTax` to 0 (lines 79-80); totals are computed only when the
lines list is non-empty; the subtotal sums the `amount` values supplied in
the payload (`line.get("amount", 0)`). -/
def demoTotals (p : Payload) : Option DocumentTotals :=
  let global_discount := p.globalDiscount.getD 0
  let global_tax := p.globalTax.getD 0
  if p.lines = [] then none
  else
    let subtotal := (p.lines.map PayloadLine.amount).sum
    let discount_amount := subtotal * (global_discount / 100)
    let after_discount := subtotal - discount_amount
    let tax_amount := after_discount * (global_tax / 100)
    let grand_total := after_discount + tax_amount
    some
      { subtotal := subtotal
        global_discount_rate := global_discount
        global_discount_amount := discount_amount
        taxable_base := after_discount
        global_tax_rate := global_tax
        total_tax := tax_amount
        grand_total := grand_total }

/-- Decimal digit characters of n, most significant first, via Mathlib's
little-endian `Nat.digits`; empty for 0. -/
def natToChars (n : Nat) : List Char :=
  ((Nat.digits 10 n).map Nat.digitChar).reverse

/-- Python's `str(n)` for a natural number: its decimal numeral, with 0
rendered as "0". -/
def decimalRepr (n : Nat) : List Char :=
  if n = 0 then ['0'] else natToChars n

/-- The format spec `:04d` applied to a natural number: the decimal numeral
left-padded with zeros to width 4 (wider numerals are kept as they are). -/
def pad4 (n : Nat) : List Char :=
  List.replicate (4 - (decimalRepr n).length) '0' ++ decimalRepr n

/-- Leading zeros of a numeral, dropped. -/
def dropZeros (l : List Char) : List Char :=
  l.dropWhile fun c => c == '0'

/-- The f-string of `EstimateManager.get_next_estimate_number`
(`src/database/managers.py` line 308). -/
def formatEstimateNumber (pfx : String) (counter : Nat) : String :=
  pfx ++ "-" ++ String.mk (pad4 counter)

/-- The business-settings fields the numbering service reads and writes
(`src/models/models.py` lines 153-154); the counter, a Python int that the
code only ever increments from its default 1, is modelled as Nat. -/
structure NumberingSettings where
  pfx : String
  estimate_counter : Nat
  deriving Repr, DecidableEq

/-- `EstimateManager.get_next_estimate_number` (`src/database/managers.py`
lines 298-308): read the current counter and the configured prefix string,
persist counter + 1 through `SettingsManager.update_estimate_counter`, and
return the current counter formatted with the prefix. -/
def get_next_estimate_number (s : NumberingSettings) :
    String × NumberingSettings :=
  (formatEstimateNumber s.pfx s.estimate_counter,
   { s with estimate_counter := s.estimate_counter + 1 })

/-- The settings state after n successive calls of the numbering service. -/
def statesAfter (s : NumberingSettings) : Nat → NumberingSettings
  | 0 => s
  | n + 1 => (get_next_estimate_number (statesAfter s n)).2

end Billing

namespace Billing

/-- C1: the document-totals computation satisfies the spec equations, every
derived field a pure function of the subtotal, with
`grand_total = subtotal - global_discount_amount + total_tax` exactly; and the
`app_persistent.py` phrasing of the same arithmetic agrees field for field. -/
theorem compute_document_totals_spec_equations
    (line_amounts : List ℚ) (gd gt : ℚ) :
    (compute_document_totals line_amounts gd gt).subtotal = line_amounts.sum ∧
    (compute_document_totals line_amounts gd gt).global_discount_amount =
      (compute_document_totals line_amounts gd gt).subtotal * (gd / 100) ∧
    (compute_document_totals line_amounts gd gt).taxable_base =
      (compute_document_totals line_amounts gd gt).subtotal -
        (compute_document_totals line_amounts gd gt).global_discount_amount ∧
    (compute_document_totals line_amounts gd gt).total_tax =
      (compute_document_totals line_amounts gd gt).taxable_base * (gt / 100) ∧
    (compute_document_totals line_amounts gd gt).grand_total =
      (compute_document_totals line_amounts gd gt).taxable_base +
        (compute_document_totals line_amounts gd gt).total_tax ∧
    (compute_document_totals line_amounts gd gt).grand_total =
      (compute_document_totals line_amounts gd gt).subtotal -
        (compute_document_totals line_amounts gd gt).global_discount_amount +
        (compute_document_totals line_amounts gd gt).total_tax ∧
    persistentTotals line_amounts.sum gd gt =
      ((compute_document_totals line_amounts gd gt).global_discount_amount,
       (compute_document_totals line_amounts gd gt).total_tax,
       (compute_document_totals line_amounts gd gt).grand_total) := by
  refine ⟨rfl, rfl, rfl, rfl, ?_, rfl, ?_⟩
  · show _ - _ + _ = _ - _ + _
    rfl
  · rfl

/-- C2: the per-line amount equals
`quantity * unit_price * (1 - discount_rate / 100)`, i.e. the gross
`quantity * unit_price` minus `gross * (discount_rate / 100)`. -/
theorem compute_line_amount_formula (q p d : ℚ) :
    compute_line_amount q p d = q * p * (1 - d / 100) ∧
    compute_line_amount q p d = q * p - q * p * (d / 100) := by
  unfold compute_line_amount
  constructor <;> ring

/-- C3 counterexample: at quantity = -1 (out of range) the code computes a
plain value, -5, where the claim demands an `InvalidInput` failure: the
code's behaviour differs from the spec-modelled validated calculator. -/
theorem line_amount_no_invalid_input_cex :
    compute_line_amount (-1) 5 0 = -5 ∧
    Except.ok (compute_line_amount (-1) 5 0) ≠
      compute_line_amount_validated (-1) 5 0 := by
  have h1 : compute_line_amount (-1) 5 0 = -5 := by
    unfold compute_line_amount
    norm_num
  have h2 : compute_line_amount_validated (-1) 5 0 =
      Except.error CalcError.InvalidInput := by
    unfold compute_line_amount_validated
    rw [if_neg]
    norm_num
  refine ⟨h1, ?_⟩
  rw [h2]
  intro hc
  exact Except.noConfusion hc

/-- C3 (amended): the code performs no range validation at all: for every
input, in range or not, the amount is computed by the same formula with no
error signalled and no clamping; in particular an out-of-range negative
quantity with a positive price yields a negative amount, while the
spec-modelled validated calculator rejects that input with `InvalidInput`. -/
theorem compute_line_amount_never_validates (q p d : ℚ)
    (hq : q < 0) (hp : 0 < p) (hd : d < 100) :
    (∀ q₁ p₁ d₁ : ℚ,
      compute_line_amount q₁ p₁ d₁ = q₁ * p₁ * (1 - d₁ / 100)) ∧
    compute_line_amount q p d < 0 ∧
    Except.ok (compute_line_amount q p d) ≠
      compute_line_amount_validated q p d ∧
    (0 ≤ q → compute_line_amount q p d =
      q * p * (1 - d / 100)) := by
  have formula : ∀ q₁ p₁ d₁ : ℚ,
      compute_line_amount q₁ p₁ d₁ = q₁ * p₁ * (1 - d₁ / 100) := by
    intro q₁ p₁ d₁
    unfold compute_line_amount
    ring
  have hneg : compute_line_amount q p d < 0 := by
    rw [formula]
    have h100 : (0:ℚ) < 1 - d / 100 := by linarith
    have : q * p < 0 := mul_neg_of_neg_of_pos hq hp
    exact mul_neg_of_neg_of_pos this h100
  refine ⟨formula, hneg, ?_, fun h => absurd h (not_le.mpr hq)⟩
  intro hcontra
  have hvalid : compute_line_amount_validated q p d =
      Except.error CalcError.InvalidInput := by
    unfold compute_line_amount_validated
    rw [if_neg]
    intro hc
    exact absurd hc.1 (not_le.mpr hq)
  rw [hvalid] at hcontra
  exact Except.noConfusion hcontra

/-- C3 witness: instantiating the no-validation theorem at
quantity = -1, price = 5, discount = 0. -/
theorem compute_line_amount_never_validates_witness :
    (∀ q₁ p₁ d₁ : ℚ,
      compute_line_amount q₁ p₁ d₁ = q₁ * p₁ * (1 - d₁ / 100)) ∧
    compute_line_amount (-1) 5 0 < 0 ∧
    Except.ok (compute_line_amount (-1) 5 0) ≠
      compute_line_amount_validated (-1) 5 0 ∧
    (0 ≤ (-1 : ℚ) → compute_line_amount (-1) 5 0 =
      (-1) * 5 * (1 - 0 / 100)) :=
  compute_line_amount_never_validates (-1) 5 0 (by norm_num) (by norm_num)
    (by norm_num)

/-- C4: the empty line-amount sequence yields subtotal 0 and every derived
field 0 (for any global rates, valid or not), and no error is signalled:
the computation is total. -/
theorem compute_document_totals_empty (gd gt : ℚ) :
    compute_document_totals [] gd gt =
      { subtotal := 0
        global_discount_rate := gd
        global_discount_amount := 0
        taxable_base := 0
        global_tax_rate := gt
        total_tax := 0
        grand_total := 0 } := by
  simp [compute_document_totals]

/-- C7: on valid inputs the per-line amount is non-negative, monotonically
non-decreasing in the quantity and in the unit price, and non-increasing in
the discount rate, the other arguments held fixed. -/
theorem compute_line_amount_monotone (q p d q₁ p₁ d₁ : ℚ)
    (hq : 0 ≤ q) (hp : 0 ≤ p) (_hd0 : 0 ≤ d) (hd1 : d ≤ 100) :
    0 ≤ compute_line_amount q p d ∧
    (q ≤ q₁ → compute_line_amount q p d ≤ compute_line_amount q₁ p d) ∧
    (p ≤ p₁ → compute_line_amount q p d ≤ compute_line_amount q p₁ d) ∧
    (d ≤ d₁ → compute_line_amount q p d₁ ≤ compute_line_amount q p d) := by
  have formula : ∀ a b c : ℚ,
      compute_line_amount a b c = a * b * (1 - c / 100) := by
    intro a b c
    unfold compute_line_amount
    ring
  have hk : (0:ℚ) ≤ 1 - d / 100 := by linarith
  have hqp : (0:ℚ) ≤ q * p := mul_nonneg hq hp
  refine ⟨?_, ?_, ?_, ?_⟩
  · rw [formula]
    exact mul_nonneg hqp hk
  · intro h
    rw [formula, formula]
    exact mul_le_mul_of_nonneg_right (mul_le_mul_of_nonneg_right h hp) hk
  · intro h
    rw [formula, formula]
    exact mul_le_mul_of_nonneg_right (mul_le_mul_of_nonneg_left h hq) hk
  · intro h
    rw [formula, formula]
    have : 1 - d₁ / 100 ≤ 1 - d / 100 := by linarith
    exact mul_le_mul_of_nonneg_left this hqp

/-- C7 witness: the non-negativity and monotonicity facts instantiated at
quantity 1 ≤ 3, price 2 ≤ 4, discount 50 ≤ 60. -/
theorem compute_line_amount_monotone_witness :
    0 ≤ compute_line_amount 1 2 50 ∧
    ((1:ℚ) ≤ 3 → compute_line_amount 1 2 50 ≤ compute_line_amount 3 2 50) ∧
    ((2:ℚ) ≤ 4 → compute_line_amount 1 2 50 ≤ compute_line_amount 1 4 50) ∧
    ((50:ℚ) ≤ 60 → compute_line_amount 1 2 60 ≤ compute_line_amount 1 2 50) :=
  compute_line_amount_monotone 1 2 50 3 4 60 (by norm_num) (by norm_num)
    (by norm_num) (by norm_num)

/-- C8: document totals are invariant under permutation of the line amounts:
the subtotal is a commutative sum, so every derived field agrees. -/
theorem compute_document_totals_perm (l₁ l₂ : List ℚ) (gd gt : ℚ)
    (h : l₁.Perm l₂) :
    compute_document_totals l₁ gd gt = compute_document_totals l₂ gd gt := by
  unfold compute_document_totals
  rw [h.sum_eq]

/-- C8 witness: the permutation invariance applied to [100, 200] and
[200, 100]. -/
theorem compute_document_totals_perm_witness :
    compute_document_totals [100, 200] 10 18 =
      compute_document_totals [200, 100] 10 18 :=
  compute_document_totals_perm [100, 200] [200, 100] 10 18
    (List.Perm.swap 200 100 [])

/-- C5 counterexample: in the `app.py` invoice flow, `line_total` is the
payload's `amount` value, stored independently of the line's inputs: a
payload line with quantity 2, rate 10, discount 0 but amount 999 is
persisted with `line_total` 999, not the derived 20. -/
theorem invoice_line_total_not_derived_cex :
    appInvoiceItems [⟨"Gadget", 2, 10, 0, 999⟩] =
      [⟨"Gadget", 2, 10, 0, 18, 999⟩] ∧
    (appInvoiceItem ⟨"Gadget", 2, 10, 0, 999⟩).line_total ≠
      compute_line_amount 2 10 0 := by
  constructor
  · rfl
  · show (999 : ℚ) ≠ compute_line_amount 2 10 0
    unfold compute_line_amount
    norm_num

/-- C5 (amended): in the persistent estimate flow every item of a
successfully saved estimate has `line_total` equal to the amount derived
from its own quantity, unit price and discount rate; the `app.py` invoice
flow, by contrast, copies `line_total` from the payload's `amount` field,
so there it can be stored independently of those inputs. -/
theorem persistent_line_total_derived (p : Payload) (e : Estimate)
    (he : appPersistentSave p = Except.ok e)
    (it : EstimateItem) (hit : it ∈ e.items) :
    it.line_total =
      compute_line_amount it.quantity it.unit_price it.discount_rate := by
  unfold appPersistentSave at he
  split at he
  · exact absurd he (by simp)
  · dsimp only at he
    split at he
    · exact absurd he (by simp)
    · injection he with h
      subst h
      simp only [persistentLineItems, List.mem_map] at hit
      obtain ⟨l, _, rfl⟩ := hit
      rfl

/-- C5 witness: saving the one-line payload (Widget, quantity 2, rate 10,
discount 5) stores `line_total` 19 = `compute_line_amount 2 10 5`. -/
theorem persistent_line_total_derived_witness :
    (⟨"Widget", 2, 10, 5, 19, 18⟩ : EstimateItem).line_total =
      compute_line_amount 2 10 5 :=
  persistent_line_total_derived
    ⟨[⟨"Widget", 2, 10, 5, 19⟩], none, none⟩
    ⟨[⟨"Widget", 2, 10, 5, 19, 18⟩], 19, 0, 0, 171/50, 1121/50⟩
    (by
      have h1 : persistentLineItems [⟨"Widget", 2, 10, 5, 19⟩] 18 =
          [⟨"Widget", 2, 10, 5, 19, 18⟩] := by
        unfold persistentLineItems
        rw [List.filter_cons_of_pos (by decide), List.filter_nil]
        simp only [List.map]
        norm_num
      unfold appPersistentSave
      rw [if_neg (by decide)]
      dsimp only [Option.getD]
      rw [h1, if_neg (by decide)]
      simp only [List.map, List.sum_cons, List.sum_nil]
      norm_num)
    ⟨"Widget", 2, 10, 5, 19, 18⟩ (by simp)

/-- C6 counterexample: a payload whose only line has quantity 0 is NOT
processed as a zero-total document by the persistent flow: the line is
filtered out and the save is rejected with the add-at-least-one-item
error. -/
theorem zero_quantity_rejected_cex :
    appPersistentSave ⟨[⟨"Widget", 0, 50, 0, 0⟩], none, none⟩ =
      Except.error SaveError.NoItems := by
  norm_num [appPersistentSave, persistentLineItems]

/-- C6 (amended): a zero-quantity line has amount 0, and a document holding
only that amount has grand total 0 for every pair of global rates; the demo
flow indeed displays such a payload as a zero-total document, but the
persistent flow skips zero-quantity lines and rejects the resulting empty
item list instead of saving a zero-total estimate. -/
theorem zero_quantity_line (p d r₁ r₂ : ℚ) (name : String)
    (rate disc amt : ℚ) (gD gT : Option ℚ) :
    compute_line_amount 0 p d = 0 ∧
    (compute_document_totals [compute_line_amount 0 p d] r₁ r₂).grand_total
      = 0 ∧
    demoTotals ⟨[⟨name, 0, rate, disc, 0⟩], some r₁, some r₂⟩ =
      some
        { subtotal := 0
          global_discount_rate := r₁
          global_discount_amount := 0
          taxable_base := 0
          global_tax_rate := r₂
          total_tax := 0
          grand_total := 0 } ∧
    appPersistentSave ⟨[⟨name, 0, rate, disc, amt⟩], gD, gT⟩ =
      Except.error SaveError.NoItems := by
  have hzero : compute_line_amount 0 p d = 0 := by
    unfold compute_line_amount
    ring
  refine ⟨hzero, ?_, ?_, ?_⟩
  · rw [hzero]
    show [(0:ℚ)].sum - _ + _ = 0
    norm_num
  · simp only [demoTotals]
    norm_num
  · norm_num [appPersistentSave, persistentLineItems]

/-- Distinct decimal digits render to distinct characters. -/
theorem digitChar_inj_of_lt {a b : Nat} (ha : a < 10) (hb : b < 10)
    (h : Nat.digitChar a = Nat.digitChar b) : a = b := by
  have key : ∀ x y : Fin 10,
      Nat.digitChar x.val = Nat.digitChar y.val → x = y := by decide
  exact congrArg Fin.val (key ⟨a, ha⟩ ⟨b, hb⟩ h)

/-- Lists of decimal digits render injectively to character lists. -/
theorem map_digitChar_inj : ∀ {l₁ l₂ : List Nat},
    (∀ d ∈ l₁, d < 10) → (∀ d ∈ l₂, d < 10) →
    l₁.map Nat.digitChar = l₂.map Nat.digitChar → l₁ = l₂
  | [], [], _, _, _ => rfl
  | [], _ :: _, _, _, h => by simp at h
  | _ :: _, [], _, _, h => by simp at h
  | a :: l₁, b :: l₂, h₁, h₂, h => by
    simp only [List.map_cons, List.cons.injEq] at h
    have hab := digitChar_inj_of_lt (h₁ a (List.mem_cons_self a l₁))
      (h₂ b (List.mem_cons_self b l₂)) h.1
    have rest := map_digitChar_inj
      (fun d hd => h₁ d (List.mem_cons_of_mem a hd))
      (fun d hd => h₂ d (List.mem_cons_of_mem b hd)) h.2
    rw [hab, rest]

/-- The raw numeral rendering is injective. -/
theorem natToChars_inj {a b : Nat} (h : natToChars a = natToChars b) :
    a = b := by
  unfold natToChars at h
  have h₂ := List.reverse_injective h
  have h₃ := map_digitChar_inj
    (fun d hd => Nat.digits_lt_base (by norm_num) hd)
    (fun d hd => Nat.digits_lt_base (by norm_num) hd) h₂
  exact Nat.digits_inj_iff.mp h₃

/-- A decimal numeral is never the empty character list. -/
theorem decimalRepr_ne_nil (n : Nat) : decimalRepr n ≠ [] := by
  unfold decimalRepr
  split
  · simp
  · unfold natToChars
    simp only [ne_eq, List.reverse_eq_nil_iff, List.map_eq_nil_iff]
    exact Nat.digits_ne_nil_iff_ne_zero.mpr (by assumption)

/-- A decimal numeral starts with a character, and for a non-zero number
that character is not the zero digit. -/
theorem decimalRepr_cons (n : Nat) :
    ∃ c t, decimalRepr n = c :: t ∧ (n ≠ 0 → c ≠ '0') := by
  by_cases hn : n = 0
  · exact ⟨'0', [], by rw [hn]; rfl, fun h => absurd hn h⟩
  · have hds : Nat.digits 10 n ≠ [] := Nat.digits_ne_nil_iff_ne_zero.mpr hn
    have hlast : (Nat.digits 10 n).getLast hds ≠ 0 :=
      Nat.getLast_digit_ne_zero 10 hn
    have hmem : (Nat.digits 10 n).getLast hds ∈ Nat.digits 10 n :=
      List.getLast_mem hds
    have hlt : (Nat.digits 10 n).getLast hds < 10 :=
      Nat.digits_lt_base (by norm_num) hmem
    have hhead : (decimalRepr n).head? =
        some (Nat.digitChar ((Nat.digits 10 n).getLast hds)) := by
      unfold decimalRepr
      rw [if_neg hn]
      unfold natToChars
      rw [List.head?_reverse, List.getLast?_map,
        List.getLast?_eq_getLast _ hds]
      rfl
    obtain ⟨c, t, hct⟩ : ∃ c t, decimalRepr n = c :: t := by
      cases hrepr : decimalRepr n with
      | nil => exact absurd hrepr (decimalRepr_ne_nil n)
      | cons c t => exact ⟨c, t, rfl⟩
    refine ⟨c, t, hct, fun _ hc => ?_⟩
    rw [hct] at hhead
    simp only [List.head?_cons, Option.some.injEq] at hhead
    have : (Nat.digits 10 n).getLast hds = 0 :=
      digitChar_inj_of_lt hlt (by norm_num)
        (by rw [← hhead, hc]; rfl)
    exact hlast this

/-- Dropping leading zeros ignores zero padding. -/
theorem dropZeros_replicate (k : Nat) (l : List Char) :
    dropZeros (List.replicate k '0' ++ l) = dropZeros l := by
  induction k with
  | zero => rw [List.replicate_zero, List.nil_append]
  | succ k ih =>
    rw [List.replicate_succ, List.cons_append]
    unfold dropZeros at ih ⊢
    rw [List.dropWhile_cons_of_pos (by rfl)]
    exact ih

/-- Dropping leading zeros recovers the numeral (or empties the zero
numeral). -/
theorem dropZeros_decimalRepr (n : Nat) :
    dropZeros (decimalRepr n) = if n = 0 then [] else decimalRepr n := by
  obtain ⟨c, t, hct, hc⟩ := decimalRepr_cons n
  by_cases hn : n = 0
  · subst hn
    rw [if_pos rfl]
    rfl
  · rw [if_neg hn, hct]
    unfold dropZeros
    rw [List.dropWhile_cons_of_neg]
    simpa using hc hn

/-- The zero-padded 4-wide numeral is injective. -/
theorem pad4_inj {a b : Nat} (h : pad4 a = pad4 b) : a = b := by
  have hd := congrArg dropZeros h
  unfold pad4 at hd
  rw [dropZeros_replicate, dropZeros_replicate, dropZeros_decimalRepr,
    dropZeros_decimalRepr] at hd
  by_cases ha : a = 0 <;> by_cases hb : b = 0
  · rw [ha, hb]
  · rw [if_pos ha, if_neg hb] at hd
    exact absurd hd.symm (decimalRepr_ne_nil b)
  · rw [if_neg ha, if_pos hb] at hd
    exact absurd hd (decimalRepr_ne_nil a)
  · rw [if_neg ha, if_neg hb] at hd
    unfold decimalRepr at hd
    rw [if_neg ha, if_neg hb] at hd
    exact natToChars_inj hd

/-- Two estimate numbers with the same configured prefix agree only when
their counters agree. -/
theorem formatEstimateNumber_inj (pfx : String) {a b : Nat}
    (h : formatEstimateNumber pfx a = formatEstimateNumber pfx b) :
    a = b := by
  unfold formatEstimateNumber at h
  have hdata := congrArg String.data h
  simp only [String.data_append] at hdata
  exact pad4_inj (List.append_cancel_left hdata)

/-- C9: the numbering service returns the prefix joined by a hyphen to the
current counter zero-padded to 4 digits, and persists the counter
incremented by exactly one; hence the counter grows by one per call,
successive counters are strictly increasing, and numbers formatted from
distinct counters are distinct strings. -/
theorem get_next_estimate_number_spec (s : NumberingSettings) (c₁ c₂ : Nat)
    (h : c₁ ≠ c₂) :
    get_next_estimate_number s =
      (formatEstimateNumber s.pfx s.estimate_counter,
       ⟨s.pfx, s.estimate_counter + 1⟩) ∧
    formatEstimateNumber s.pfx c₁ ≠ formatEstimateNumber s.pfx c₂ ∧
    (get_next_estimate_number ((get_next_estimate_number s).2)).1 ≠
      (get_next_estimate_number s).1 ∧
    (∀ n : Nat,
      (statesAfter s n).estimate_counter = s.estimate_counter + n) ∧
    (∀ n m : Nat, n < m →
      (statesAfter s n).estimate_counter <
        (statesAfter s m).estimate_counter) := by
  have hiter : ∀ n : Nat,
      (statesAfter s n).estimate_counter = s.estimate_counter + n := by
    intro n
    induction n with
    | zero => rfl
    | succ n ih =>
      show (statesAfter s n).estimate_counter + 1 = _
      omega
  refine ⟨rfl, fun hc => h (formatEstimateNumber_inj s.pfx hc), ?_, hiter,
    ?_⟩
  · intro hc
    have heq : s.estimate_counter + 1 = s.estimate_counter :=
      formatEstimateNumber_inj s.pfx hc
    omega
  · intro n m hnm
    rw [hiter n, hiter m]
    omega

/-- C9 witness: with prefix "EST" and counter 1, the call returns the
number formatted for counter 1 and persists counter 2; the numbers for
counters 1 and 2 are distinct. -/
theorem get_next_estimate_number_spec_witness :
    get_next_estimate_number ⟨"EST", 1⟩ =
      (formatEstimateNumber "EST" 1, ⟨"EST", 2⟩) ∧
    formatEstimateNumber "EST" 1 ≠ formatEstimateNumber "EST" 2 ∧
    (get_next_estimate_number
        ((get_next_estimate_number ⟨"EST", 1⟩).2)).1 ≠
      (get_next_estimate_number ⟨"EST", 1⟩).1 ∧
    (∀ n : Nat,
      (statesAfter ⟨"EST", 1⟩ n).estimate_counter = 1 + n) ∧
    (∀ n m : Nat, n < m →
      (statesAfter ⟨"EST", 1⟩ n).estimate_counter <
        (statesAfter ⟨"EST", 1⟩ m).estimate_counter) :=
  get_next_estimate_number_spec ⟨"EST", 1⟩ 1 2 (by decide)

/-- C10: given the same payload with no `globalTax` key and a non-zero
subtotal (one line: quantity 1 at rate 100, no discounts), the persistent
flow defaults the global tax to 18 percent and computes grand total 118,
while the demo flow defaults it to 0 and computes grand total 100. -/
theorem default_tax_divergence :
    (Payload.mk [⟨"Consulting", 1, 100, 0, 100⟩] none none).globalTax
      = none ∧
    appPersistentSave (Payload.mk [⟨"Consulting", 1, 100, 0, 100⟩] none none)
      = Except.ok
        { items := [⟨"Consulting", 1, 100, 0, 100, 18⟩]
          subtotal := 100
          global_discount_rate := 0
          global_discount_amount := 0
          total_tax := 18
          grand_total := 118 } ∧
    demoTotals (Payload.mk [⟨"Consulting", 1, 100, 0, 100⟩] none none)
      = some
        { subtotal := 100
          global_discount_rate := 0
          global_discount_amount := 0
          taxable_base := 100
          global_tax_rate := 0
          total_tax := 0
          grand_total := 100 } ∧
    (118 : ℚ) ≠ 100 := by
  refine ⟨rfl, ?_, ?_, by norm_num⟩
  · have h1 : persistentLineItems [⟨"Consulting", 1, 100, 0, 100⟩] 18 =
        [⟨"Consulting", 1, 100, 0, 100, 18⟩] := by
      unfold persistentLineItems
      rw [List.filter_cons_of_pos (by decide), List.filter_nil]
      simp only [List.map]
      norm_num
    unfold appPersistentSave
    rw [if_neg (by decide)]
    dsimp only [Option.getD]
    rw [h1, if_neg (by decide)]
    simp only [List.map, List.sum_cons, List.sum_nil]
    norm_num
  · simp only [demoTotals]
    norm_num

end Billing
